import Mathlib

/-!
GravityGun: the first-person inventory character

A shallow embedding of `Source/GravityGun/InventoryCharacter.cpp`.

* The character object is a record of the members the source reads and writes.
* Every member function becomes a function from the character to the new character
  together with the list of calls it issued, in program order, on its collaborators
  (the Inventory, the equipped Weapon, the engine).
* A member function that dereferences a pointer which may be null returns an `Except`;
  dereferencing a null pointer is the fault `Fault.nullDereference`.
* `float` values are IEEE-754 binary32 bit patterns.  The source compares a float against
  `0.0f`, passes floats through unchanged, and multiplies them; the product `a * b` is
  `Float32.mul`, the exact product rounded to nearest, ties to even, with the infinities and
  NaN of the format.  An expression `x * y * z` is evaluated left to right, each product
  rounded to binary32.
* The Inventory class is declared outside this source file; its member functions are
  taken as parameters (`Inventory ι`), so every statement quantified over `Inventory ι`
  holds for every behaviour of the Inventory.
* The members of the character are written by the character's own statements only: the
  body mesh is hidden or shown by `SetHiddenInGame`, which the source calls in `BeginPlay`
  and `DropInventoryItem` and nowhere else.
* `Super::BeginPlay` and `Super::Tick` are engine code and are left out.
-/

namespace GravityGun

/-! ## Values -/

/-- An IEEE-754 binary32 value, kept as its bit pattern (read modulo `2^32`). -/
structure Float32 where
  bits : Nat
deriving DecidableEq

/-- The float comparison `v == 0.0f`: true exactly for the two zeros `+0.0` (`0x00000000`)
and `-0.0` (`0x80000000`), i.e. when the 31 bits below the sign bit are all clear.
A NaN has a set exponent, so it does not compare equal to zero. -/
def Float32.isZero (v : Float32) : Bool :=
  (v.bits % 4294967296) % 2147483648 == 0

/-- The float comparison `v != 0.0f`, the negation of `==` (true for NaN). -/
def Float32.neZero (v : Float32) : Bool :=
  !v.isZero

/-- The literal `1.f`. -/
def Float32.one : Float32 := ⟨1065353216⟩

/-- The literal `2.0f`. -/
def Float32.two : Float32 := ⟨1073741824⟩

/-- The literal `45.0f`, bit pattern `0x42340000`. -/
def Float32.fortyFive : Float32 := ⟨1110704128⟩

/-- The sign bit of the pattern. -/
def Float32.signBit (v : Float32) : Nat :=
  (v.bits % 4294967296) / 2147483648

/-- The 8-bit biased exponent field. -/
def Float32.expField (v : Float32) : Nat :=
  (v.bits % 2147483648) / 8388608

/-- The 23-bit fraction field. -/
def Float32.fraction (v : Float32) : Nat :=
  v.bits % 8388608

/-- A NaN: exponent field all ones, fraction not zero. -/
def Float32.isNaN (v : Float32) : Bool :=
  v.expField == 255 && v.fraction != 0

/-- An infinity: exponent field all ones, fraction zero. -/
def Float32.isInf (v : Float32) : Bool :=
  v.expField == 255 && v.fraction == 0

/-- A finite value: neither an infinity nor a NaN. -/
def Float32.isFinite (v : Float32) : Bool :=
  v.expField != 255

/-- The integer significand of a finite value: the fraction, with the hidden bit `2^23` for
a normal number.  The magnitude of the value is `significand * 2^(scale - 150)`. -/
def Float32.significand (v : Float32) : Nat :=
  if v.expField = 0 then v.fraction else 8388608 + v.fraction

/-- The exponent of a finite value, offset by 150 (see `Float32.significand`): a subnormal
number has the exponent of the smallest normal one. -/
def Float32.scale (v : Float32) : Nat :=
  if v.expField = 0 then 1 else v.expField

/-- The quiet NaN an arithmetic operation returns for a NaN operand: the operand with the
quiet bit (bit 22) set. -/
def Float32.quiet (v : Float32) : Float32 :=
  ⟨v.signBit * 2147483648 + 2139095040 + 4194304 + v.fraction % 4194304⟩

/-- The number of `k < 48` with `2^k ≤ n`: the bit length of `n` for `n < 2^48`, which
covers every product of two 24-bit significands. -/
def bitLength (n : Nat) : Nat :=
  (List.range 48).countP (fun k => 2 ^ k ≤ n)

/-- The quotient `p / 2^s` rounded to nearest, ties to even. -/
def roundShift (p s : Nat) : Nat :=
  if 2 ^ s < 2 * (p % 2 ^ s) ∨ (2 * (p % 2 ^ s) = 2 ^ s ∧ (p / 2 ^ s) % 2 = 1) then
    p / 2 ^ s + 1
  else
    p / 2 ^ s

/-- The 31 magnitude bits of the binary32 value nearest to `p * 2^(s - 300)`, for `p > 0`.
With `b` the biased exponent field less one (zero in the subnormal range), the significand
`m` is `p` scaled to the unit `2^(b - 149)` and rounded; a carry out of `m` moves into the
exponent field, and a result past the largest finite value is the infinity `0x7F800000`. -/
def roundMagnitude (p s : Nat) : Nat :=
  let b := (bitLength p + s) - 175
  let m := if 151 + b ≤ s then p * 2 ^ (s - 151 - b) else roundShift p (151 + b - s)
  if 2139095040 ≤ b * 8388608 + m then 2139095040 else b * 8388608 + m

/-- The binary32 product `a * b`, rounded to nearest, ties to even.  A NaN operand gives
that NaN quieted (the left one when both are NaN), zero times infinity gives the default NaN
`0xFFC00000`, and otherwise the sign is the exclusive or of the operands' signs. -/
def Float32.mul (a b : Float32) : Float32 :=
  if a.isNaN then a.quiet
  else if b.isNaN then b.quiet
  else if (a.isInf && b.isZero) || (a.isZero && b.isInf) then ⟨4290772992⟩
  else if a.isInf || b.isInf then
    ⟨(a.signBit + b.signBit) % 2 * 2147483648 + 2139095040⟩
  else if a.isZero || b.isZero then
    ⟨(a.signBit + b.signBit) % 2 * 2147483648⟩
  else
    ⟨(a.signBit + b.signBit) % 2 * 2147483648
      + roundMagnitude (a.significand * b.significand) (a.scale + b.scale)⟩

/-- The float `3.0f`, bit pattern `0x40400000`. -/
def Float32.three : Float32 := ⟨1077936128⟩

/-- The float nearest to one sixtieth, `0x3C888889`: the delta time of a 60 Hz frame. -/
def Float32.sixtieth : Float32 := ⟨1015580809⟩

/-- The float `+infinity`, bit pattern `0x7F800000`. -/
def Float32.posInf : Float32 := ⟨2139095040⟩

/-- An engine vector. -/
structure FVector where
  X : Float32
  Y : Float32
  Z : Float32
deriving DecidableEq

/-- The components the character owns. -/
inductive Component
  | CapsuleComponent
  | FirstPersonCamera
  | Char
deriving DecidableEq

/-- The engine attachment rules. -/
inductive EAttachmentRule
  | KeepRelative
  | KeepWorld
  | SnapToTarget
deriving DecidableEq

/-- The value `FAttachmentTransformRules(rule, bWeldSimulatedBodies)`. -/
structure FAttachmentTransformRules where
  rule : EAttachmentRule
  bWeldSimulatedBodies : Bool
deriving DecidableEq

/-- An inventory item reference, with its dynamic type: either an `AWeapon` or some other
`AInventoryItem`.  The number identifies the object. -/
inductive AInventoryItem
  | weapon (id : Nat)
  | other (id : Nat)
deriving DecidableEq

/-- The dynamic downcast `Cast<AWeapon>(p)`: the weapon when `p` points to an `AWeapon`,
null otherwise (also for a null `p`). -/
def Cast_AWeapon : Option AInventoryItem → Option Nat
  | some (AInventoryItem.weapon w) => some w
  | some (AInventoryItem.other _) => none
  | none => none

/-! ## Calls on collaborators -/

/-- One call issued by the character on the Inventory, on a Weapon, or on the engine. -/
inductive Call
  /-- The call `CharacterInventory->SetCamera(camera)`. -/
  | SetCamera (camera : Component)
  /-- The call `CharacterInventory->PickupItem()`. -/
  | PickupItem
  /-- The call `CharacterInventory->DropEquippedItem(actor)`. -/
  | DropEquippedItem (actor : Nat)
  /-- The call `CharacterInventory->Raycast(actor)`. -/
  | Raycast (actor : Nat)
  /-- The call `GEngine->AddOnScreenDebugMessage(key, time, colour, text)`. -/
  | AddOnScreenDebugMessage (key : Int) (timeToDisplay : Float32) (text : String)
  /-- The call `weapon->AttachToComponent(target, rules, socket)`. -/
  | AttachToComponent (weapon : Nat) (target : Component)
      (rules : FAttachmentTransformRules) (socket : String)
  /-- The call `weapon->SetPickupProperties()`. -/
  | SetPickupProperties (weapon : Nat)
  /-- The call `weapon->Fire()`. -/
  | WeaponFire (weapon : Nat)
  /-- The call `weapon->SecondaryFire()`. -/
  | WeaponSecondaryFire (weapon : Nat)
  /-- The call `animInstance->Montage_Play(montage, playRate)`. -/
  | Montage_Play (animInstance : Nat) (montage : Nat) (playRate : Float32)
  /-- The call `AddMovementInput(direction, scale)`. -/
  | AddMovementInput (direction : FVector) (scale : Float32)
  /-- The call `AddControllerYawInput(value)`. -/
  | AddControllerYawInput (value : Float32)
  /-- The call `AddControllerPitchInput(value)`. -/
  | AddControllerPitchInput (value : Float32)
deriving DecidableEq

/-- Is the call an `AttachToComponent`? -/
def Call.isAttach : Call → Bool
  | Call.AttachToComponent _ _ _ _ => true
  | _ => false

/-- Is the call a `SetPickupProperties`? -/
def Call.isSetPickupProperties : Call → Bool
  | Call.SetPickupProperties _ => true
  | _ => false

/-- Is the call made on a Weapon? -/
def Call.isWeaponCall : Call → Bool
  | Call.AttachToComponent _ _ _ _ => true
  | Call.SetPickupProperties _ => true
  | Call.WeaponFire _ => true
  | Call.WeaponSecondaryFire _ => true
  | _ => false

/-- Is the call a `Montage_Play`? -/
def Call.isMontagePlay : Call → Bool
  | Call.Montage_Play _ _ _ => true
  | _ => false

/-- Is the call a `DropEquippedItem`? -/
def Call.isDropEquippedItem : Call → Bool
  | Call.DropEquippedItem _ => true
  | _ => false

/-! ## The Inventory collaborator -/

/-- The member functions of the Inventory that the character calls, over an arbitrary
Inventory state `ι`.  The class itself lives outside `InventoryCharacter.cpp`, so its
behaviour is a parameter: the two getters read the state, the other four update it. -/
structure Inventory (ι : Type) where
  SetCamera : ι → Component → ι
  PickupItem : ι → ι
  GetLastItemSeen : ι → Option AInventoryItem
  GetEquippedItem : ι → Option AInventoryItem
  DropEquippedItem : ι → Nat → ι
  Raycast : ι → Nat → ι

/-! ## The character -/

/-- The body mesh `Char`: the members of the skeletal mesh component the source uses. -/
structure USkeletalMeshComponent where
  bHiddenInGame : Bool
  AnimInstance : Option Nat
deriving DecidableEq

/-- The engine setter `SetHiddenInGame(NewHidden)`. -/
def USkeletalMeshComponent.SetHiddenInGame (m : USkeletalMeshComponent) (NewHidden : Bool) :
    USkeletalMeshComponent :=
  { m with bHiddenInGame := NewHidden }

/-- The getter `GetAnimInstance()`. -/
def USkeletalMeshComponent.GetAnimInstance (m : USkeletalMeshComponent) : Option Nat :=
  m.AnimInstance

/-- The character object `AInventoryCharacter`.  `self` identifies `this`;
`CharacterInventory` is a pointer and may be null; `ActorForwardVector` and
`ActorRightVector` are what the engine getters of the same names return. -/
structure AInventoryCharacter (ι : Type) where
  self : Nat
  BaseTurnRate : Float32
  BaseLookUpRate : Float32
  bIsHiddenMesh : Bool
  Char : USkeletalMeshComponent
  CharacterInventory : Option ι
  FireAnimation : Option Nat
  ActorForwardVector : FVector
  ActorRightVector : FVector

/-- The fault of a member function. -/
inductive Fault
  /-- A member was accessed through a null pointer. -/
  | nullDereference
deriving DecidableEq

/-- The socket name `TEXT("GripPoint")`. -/
def GripPoint : String := "GripPoint"

/-- The debug text `TEXT("Gun Here!")`. -/
def GunHere : String := "Gun Here!"

variable {ι : Type}

/-- The constructor `AInventoryCharacter::AInventoryCharacter` (source lines 20-50), on the
members of the record: it assigns `45.0f` to both base rates.  The argument holds the
members the constructor does not assign and the components as the engine creates them. -/
def AInventoryCharacter.AInventoryCharacter (c0 : AInventoryCharacter ι) :
    AInventoryCharacter ι :=
  { c0 with BaseTurnRate := Float32.fortyFive, BaseLookUpRate := Float32.fortyFive }

/-- The function `AInventoryCharacter::BeginPlay` (source lines 53-63). -/
def BeginPlay (I : Inventory ι) (c : AInventoryCharacter ι) :
    Except Fault (AInventoryCharacter ι × List Call) :=
  let c1 := { c with Char := c.Char.SetHiddenInGame true }
  let c2 := { c1 with bIsHiddenMesh := true }
  match c2.CharacterInventory with
  | none => Except.error Fault.nullDereference
  | some s =>
    Except.ok ({ c2 with CharacterInventory := some (I.SetCamera s Component.FirstPersonCamera) },
      [Call.SetCamera Component.FirstPersonCamera])

/-- The function `AInventoryCharacter::PickUpInventoryItem` (source lines 65-81).  The
equipped item is fetched and downcast twice, once for each call made on it. -/
def PickUpInventoryItem (I : Inventory ι) (c : AInventoryCharacter ι) :
    Except Fault (AInventoryCharacter ι × List Call) :=
  match c.CharacterInventory with
  | none => Except.error Fault.nullDereference
  | some s0 =>
    let s := I.PickupItem s0
    let c1 := { c with CharacterInventory := some s }
    match I.GetLastItemSeen s with
    | none => Except.ok (c1, [Call.PickupItem])
    | some _ =>
      match Cast_AWeapon (I.GetEquippedItem s) with
      | none => Except.error Fault.nullDereference
      | some w1 =>
        match Cast_AWeapon (I.GetEquippedItem s) with
        | none => Except.error Fault.nullDereference
        | some w2 =>
          Except.ok ({ c1 with bIsHiddenMesh := false },
            [Call.PickupItem,
             Call.AddOnScreenDebugMessage (-1) Float32.two GunHere,
             Call.AttachToComponent w1 Component.Char
               ⟨EAttachmentRule.SnapToTarget, true⟩ GripPoint,
             Call.SetPickupProperties w2])

/-- The function `AInventoryCharacter::DropInventoryItem` (source lines 83-88). -/
def DropInventoryItem (I : Inventory ι) (c : AInventoryCharacter ι) :
    Except Fault (AInventoryCharacter ι × List Call) :=
  match c.CharacterInventory with
  | none => Except.error Fault.nullDereference
  | some s =>
    let c1 := { c with CharacterInventory := some (I.DropEquippedItem s c.self) }
    let c2 := { c1 with Char := c1.Char.SetHiddenInGame true }
    Except.ok ({ c2 with bIsHiddenMesh := true }, [Call.DropEquippedItem c.self])

/-- The engine getter `GetActorForwardVector()`. -/
def GetActorForwardVector (c : AInventoryCharacter ι) : FVector :=
  c.ActorForwardVector

/-- The engine getter `GetActorRightVector()`. -/
def GetActorRightVector (c : AInventoryCharacter ι) : FVector :=
  c.ActorRightVector

/-- The function `AInventoryCharacter::MoveForward` (source lines 90-97). -/
def MoveForward (c : AInventoryCharacter ι) (Val : Float32) :
    AInventoryCharacter ι × List Call :=
  if Val.neZero then
    (c, [Call.AddMovementInput (GetActorForwardVector c) Val])
  else
    (c, [])

/-- The function `AInventoryCharacter::MoveRight` (source lines 99-106). -/
def MoveRight (c : AInventoryCharacter ι) (Val : Float32) :
    AInventoryCharacter ι × List Call :=
  if Val.neZero then
    (c, [Call.AddMovementInput (GetActorRightVector c) Val])
  else
    (c, [])

/-- The function `AInventoryCharacter::TurnAtRate` (source lines 108-112).  `DeltaSeconds`
is what `GetWorld()->GetDeltaSeconds()` returns for the current frame. -/
def TurnAtRate (c : AInventoryCharacter ι) (Rate DeltaSeconds : Float32) :
    AInventoryCharacter ι × List Call :=
  (c, [Call.AddControllerYawInput ((Rate.mul c.BaseTurnRate).mul DeltaSeconds)])

/-- The function `AInventoryCharacter::LookUpAtRate` (source lines 114-118).  `DeltaSeconds`
is what `GetWorld()->GetDeltaSeconds()` returns for the current frame. -/
def LookUpAtRate (c : AInventoryCharacter ι) (Rate DeltaSeconds : Float32) :
    AInventoryCharacter ι × List Call :=
  (c, [Call.AddControllerPitchInput ((Rate.mul c.BaseLookUpRate).mul DeltaSeconds)])

/-- The function `AInventoryCharacter::Fire` (source lines 120-138). -/
def Fire (I : Inventory ι) (c : AInventoryCharacter ι) :
    Except Fault (AInventoryCharacter ι × List Call) :=
  match c.CharacterInventory with
  | none => Except.error Fault.nullDereference
  | some s =>
    match I.GetEquippedItem s with
    | none => Except.ok (c, [])
    | some _ =>
      match Cast_AWeapon (I.GetEquippedItem s) with
      | none => Except.error Fault.nullDereference
      | some w =>
        match c.FireAnimation with
        | none => Except.ok (c, [Call.WeaponFire w])
        | some montage =>
          match c.Char.GetAnimInstance with
          | none => Except.ok (c, [Call.WeaponFire w])
          | some anim =>
            Except.ok (c, [Call.WeaponFire w, Call.Montage_Play anim montage Float32.one])

/-- The function `AInventoryCharacter::SecondaryFire` (source lines 140-145). -/
def SecondaryFire (I : Inventory ι) (c : AInventoryCharacter ι) :
    Except Fault (AInventoryCharacter ι × List Call) :=
  match c.CharacterInventory with
  | none => Except.error Fault.nullDereference
  | some s =>
    match I.GetEquippedItem s with
    | none => Except.ok (c, [])
    | some _ =>
      match Cast_AWeapon (I.GetEquippedItem s) with
      | none => Except.error Fault.nullDereference
      | some w => Except.ok (c, [Call.WeaponSecondaryFire w])

/-- The function `AInventoryCharacter::Tick` (source lines 147-154). -/
def Tick (I : Inventory ι) (c : AInventoryCharacter ι) (_DeltaTime : Float32) :
    Except Fault (AInventoryCharacter ι × List Call) :=
  match c.CharacterInventory with
  | some s =>
    Except.ok ({ c with CharacterInventory := some (I.Raycast s c.self) }, [Call.Raycast c.self])
  | none => Except.ok (c, [])

/-! ## A concrete Inventory and concrete characters -/

/-- Modelled from the spec: the Inventory collaborator, whose source is not part of
`InventoryCharacter.cpp`.  It "tracks the currently equipped item" and the "last-seen
item", "the most recent pickup-eligible item detected by Inventory's raycast", and is
handed the camera by `SetCamera`. -/
structure InventoryState where
  EquippedItem : Option AInventoryItem
  LastItemSeen : Option AInventoryItem
  Camera : Option Component
deriving DecidableEq

/-- Modelled from the spec: an Inventory whose `PickupItem` equips the last-seen item when
there is one, whose `DropEquippedItem` clears the equipped item, and whose getters read the
two tracked items.  It instantiates the `Inventory` parameter at concrete inputs. -/
def simpleInventory : Inventory InventoryState where
  SetCamera s camera := { s with Camera := some camera }
  PickupItem s :=
    match s.LastItemSeen with
    | some item => { s with EquippedItem := some item }
    | none => s
  GetLastItemSeen s := s.LastItemSeen
  GetEquippedItem s := s.EquippedItem
  DropEquippedItem s _ := { s with EquippedItem := none }
  Raycast s _ := s

/-- An Inventory state with nothing equipped and the weapon `5` in view. -/
def gunInView : InventoryState := ⟨none, some (AInventoryItem.weapon 5), none⟩

/-- An Inventory state with nothing equipped and nothing in view. -/
def nothingInView : InventoryState := ⟨none, none, none⟩

/-- An Inventory state with the weapon `5` equipped. -/
def gunEquipped : InventoryState := ⟨some (AInventoryItem.weapon 5), none, none⟩

/-- A character as it stands before `BeginPlay`: the turn rates are the `45.0f` the
constructor assigns, the body mesh is the freshly created component (not hidden), and the
Inventory pointer and the firing montage are whatever was configured. -/
def spawned (inventory : Option InventoryState) (fireAnimation : Option Nat)
    (animInstance : Option Nat) : AInventoryCharacter InventoryState where
  self := 1
  BaseTurnRate := Float32.fortyFive
  BaseLookUpRate := Float32.fortyFive
  bIsHiddenMesh := false
  Char := ⟨false, animInstance⟩
  CharacterInventory := inventory
  FireAnimation := fireAnimation
  ActorForwardVector := ⟨Float32.one, ⟨0⟩, ⟨0⟩⟩
  ActorRightVector := ⟨⟨0⟩, Float32.one, ⟨0⟩⟩

/-- The float `-0.0f`, bit pattern `0x80000000`. -/
def Float32.negZero : Float32 := ⟨2147483648⟩

/-! ## Pickup -/

/-- C2: when the Inventory is present and, after its `PickupItem` call, reports a last-seen
item and an equipped item that is a Weapon `w`, `PickUpInventoryItem` succeeds, clears
`bIsHiddenMesh`, and issues exactly one `AttachToComponent` (target the body mesh `Char`,
socket "GripPoint") and exactly one `SetPickupProperties`, both on `w`, the attach first. -/
theorem PickUpInventoryItem_item_seen (I : Inventory ι) (c : AInventoryCharacter ι) (s : ι)
    (seen : AInventoryItem) (w : Nat)
    (hinv : c.CharacterInventory = some s)
    (hseen : I.GetLastItemSeen (I.PickupItem s) = some seen)
    (hweapon : I.GetEquippedItem (I.PickupItem s) = some (AInventoryItem.weapon w)) :
    ∃ c1 tr, PickUpInventoryItem I c = Except.ok (c1, tr) ∧
      c1.bIsHiddenMesh = false ∧
      tr = [Call.PickupItem,
            Call.AddOnScreenDebugMessage (-1) Float32.two GunHere,
            Call.AttachToComponent w Component.Char ⟨EAttachmentRule.SnapToTarget, true⟩ GripPoint,
            Call.SetPickupProperties w] ∧
      tr.filter Call.isAttach =
        [Call.AttachToComponent w Component.Char ⟨EAttachmentRule.SnapToTarget, true⟩ GripPoint] ∧
      tr.filter Call.isSetPickupProperties = [Call.SetPickupProperties w] := by
  simp only [PickUpInventoryItem, hinv, hseen, hweapon, Cast_AWeapon]
  exact ⟨_, _, rfl, rfl, rfl, rfl, rfl⟩

/-- Witness of C2: the character whose Inventory has the weapon `5` in view. -/
theorem PickUpInventoryItem_item_seen_witness :
    ∃ c1 tr, PickUpInventoryItem simpleInventory (spawned (some gunInView) none none)
        = Except.ok (c1, tr) ∧
      c1.bIsHiddenMesh = false ∧
      tr = [Call.PickupItem,
            Call.AddOnScreenDebugMessage (-1) Float32.two GunHere,
            Call.AttachToComponent 5 Component.Char ⟨EAttachmentRule.SnapToTarget, true⟩ GripPoint,
            Call.SetPickupProperties 5] ∧
      tr.filter Call.isAttach =
        [Call.AttachToComponent 5 Component.Char ⟨EAttachmentRule.SnapToTarget, true⟩ GripPoint] ∧
      tr.filter Call.isSetPickupProperties = [Call.SetPickupProperties 5] :=
  PickUpInventoryItem_item_seen simpleInventory (spawned (some gunInView) none none) gunInView
    (AInventoryItem.weapon 5) 5 rfl rfl rfl

/-- C3: when the Inventory is present and reports no last-seen item after its `PickupItem`
call, `PickUpInventoryItem` succeeds, leaves `bIsHiddenMesh` and the body mesh as they
were, and its only call is the one `PickupItem` on the Inventory: no attach, no
`SetPickupProperties`. -/
theorem PickUpInventoryItem_nothing_seen (I : Inventory ι) (c : AInventoryCharacter ι) (s : ι)
    (hinv : c.CharacterInventory = some s)
    (hseen : I.GetLastItemSeen (I.PickupItem s) = none) :
    ∃ c1 tr, PickUpInventoryItem I c = Except.ok (c1, tr) ∧
      c1.bIsHiddenMesh = c.bIsHiddenMesh ∧
      c1.Char = c.Char ∧
      (c.Char.bHiddenInGame = true → c1.Char.bHiddenInGame = true) ∧
      tr = [Call.PickupItem] ∧
      tr.filter Call.isAttach = [] ∧
      tr.filter Call.isSetPickupProperties = [] ∧
      tr.filter Call.isWeaponCall = [] := by
  simp only [PickUpInventoryItem, hinv, hseen]
  exact ⟨_, _, rfl, rfl, rfl, fun h => h, rfl, rfl, rfl, rfl⟩

/-- Witness of C3: after `BeginPlay` hid the mesh, a pickup with nothing in view. -/
theorem PickUpInventoryItem_nothing_seen_witness :
    ∃ c1 tr, PickUpInventoryItem simpleInventory
        { spawned (some nothingInView) none none with
          bIsHiddenMesh := true, Char := ⟨true, none⟩ } = Except.ok (c1, tr) ∧
      c1.bIsHiddenMesh = true ∧
      c1.Char = ⟨true, none⟩ ∧
      ((true : Bool) = true → c1.Char.bHiddenInGame = true) ∧
      tr = [Call.PickupItem] ∧
      tr.filter Call.isAttach = [] ∧
      tr.filter Call.isSetPickupProperties = [] ∧
      tr.filter Call.isWeaponCall = [] :=
  PickUpInventoryItem_nothing_seen simpleInventory
    { spawned (some nothingInView) none none with
      bIsHiddenMesh := true, Char := ⟨true, none⟩ } nothingInView rfl rfl

/-! ## Drop -/

/-- C4: when the Inventory is present, whatever it has equipped and whatever the flag and
the mesh were, `DropInventoryItem` succeeds, its only call is one `DropEquippedItem`
passing the character itself, and it ends with `bIsHiddenMesh = true` and the body mesh
hidden; a second call succeeds as well and leaves the flag and the mesh as the first did. -/
theorem DropInventoryItem_hides_mesh (I : Inventory ι) (c : AInventoryCharacter ι) (s : ι)
    (hinv : c.CharacterInventory = some s) :
    ∃ c1 tr1, DropInventoryItem I c = Except.ok (c1, tr1) ∧
      tr1 = [Call.DropEquippedItem c.self] ∧
      (tr1.filter Call.isDropEquippedItem).length = 1 ∧
      c1.bIsHiddenMesh = true ∧
      c1.Char.bHiddenInGame = true ∧
      ∃ c2 tr2, DropInventoryItem I c1 = Except.ok (c2, tr2) ∧
        c2.bIsHiddenMesh = c1.bIsHiddenMesh ∧
        c2.Char.bHiddenInGame = c1.Char.bHiddenInGame := by
  simp only [DropInventoryItem, hinv]
  exact ⟨_, _, rfl, rfl, rfl, rfl, rfl, _, _, rfl, rfl, rfl⟩

/-- Witness of C4: a drop while the weapon `5` is equipped and the mesh is shown. -/
theorem DropInventoryItem_hides_mesh_witness :
    ∃ c1 tr1, DropInventoryItem simpleInventory (spawned (some gunEquipped) none none)
        = Except.ok (c1, tr1) ∧
      tr1 = [Call.DropEquippedItem 1] ∧
      (tr1.filter Call.isDropEquippedItem).length = 1 ∧
      c1.bIsHiddenMesh = true ∧
      c1.Char.bHiddenInGame = true ∧
      ∃ c2 tr2, DropInventoryItem simpleInventory c1 = Except.ok (c2, tr2) ∧
        c2.bIsHiddenMesh = c1.bIsHiddenMesh ∧
        c2.Char.bHiddenInGame = c1.Char.bHiddenInGame :=
  DropInventoryItem_hides_mesh simpleInventory (spawned (some gunEquipped) none none)
    gunEquipped rfl

/-! ## Fire and secondary fire -/

/-- C5: when the Inventory is present and reports no equipped item, `Fire` and
`SecondaryFire` both succeed, issue no call at all (no Weapon call, no montage), whatever
`FireAnimation` and the animation instance are, and leave the character as it was. -/
theorem Fire_nothing_equipped (I : Inventory ι) (c : AInventoryCharacter ι) (s : ι)
    (hinv : c.CharacterInventory = some s)
    (hnone : I.GetEquippedItem s = none) :
    Fire I c = Except.ok (c, []) ∧ SecondaryFire I c = Except.ok (c, []) := by
  constructor
  · simp only [Fire, hinv, hnone]
  · simp only [SecondaryFire, hinv, hnone]

/-- Witness of C5: nothing equipped, a firing montage configured and an animation instance
available. -/
theorem Fire_nothing_equipped_witness :
    Fire simpleInventory (spawned (some nothingInView) (some 3) (some 7))
        = Except.ok (spawned (some nothingInView) (some 3) (some 7), []) ∧
      SecondaryFire simpleInventory (spawned (some nothingInView) (some 3) (some 7))
        = Except.ok (spawned (some nothingInView) (some 3) (some 7), []) :=
  Fire_nothing_equipped simpleInventory (spawned (some nothingInView) (some 3) (some 7))
    nothingInView rfl rfl

/-- C9: when the Inventory is present and its equipped item is the Weapon `w`, `Fire`
succeeds, leaves the character as it was, and issues exactly one Weapon `Fire` call,
followed by one `Montage_Play` of the configured montage exactly when `FireAnimation` is
set and the body mesh has an animation instance, and by nothing otherwise;
`SecondaryFire` succeeds, leaves the character as it was, and its only call is one Weapon
`SecondaryFire`. -/
theorem Fire_weapon_equipped (I : Inventory ι) (c : AInventoryCharacter ι) (s : ι) (w : Nat)
    (hinv : c.CharacterInventory = some s)
    (hweapon : I.GetEquippedItem s = some (AInventoryItem.weapon w)) :
    (∃ tr, Fire I c = Except.ok (c, tr) ∧
      tr.filter Call.isWeaponCall = [Call.WeaponFire w] ∧
      ((tr.filter Call.isMontagePlay).length = 1 ↔
        (c.FireAnimation.isSome = true ∧ c.Char.GetAnimInstance.isSome = true)) ∧
      ((tr.filter Call.isMontagePlay).length = 0 ↔
        ¬ (c.FireAnimation.isSome = true ∧ c.Char.GetAnimInstance.isSome = true)) ∧
      (∀ montage anim, c.FireAnimation = some montage → c.Char.GetAnimInstance = some anim →
        tr = [Call.WeaponFire w, Call.Montage_Play anim montage Float32.one]) ∧
      ((c.FireAnimation = none ∨ c.Char.GetAnimInstance = none) → tr = [Call.WeaponFire w])) ∧
    SecondaryFire I c = Except.ok (c, [Call.WeaponSecondaryFire w]) := by
  constructor
  · cases hf : c.FireAnimation with
    | none =>
      refine ⟨[Call.WeaponFire w], ?_, rfl, ?_, ?_, ?_, fun _ => rfl⟩
      · simp only [Fire, hinv, hweapon, Cast_AWeapon, hf]
      · simp [Call.isMontagePlay]
      · simp [Call.isMontagePlay]
      · intro montage anim h
        cases h
    | some m =>
      cases ha : c.Char.GetAnimInstance with
      | none =>
        refine ⟨[Call.WeaponFire w], ?_, rfl, ?_, ?_, ?_, fun _ => rfl⟩
        · simp only [Fire, hinv, hweapon, Cast_AWeapon, hf, ha]
        · simp [Call.isMontagePlay]
        · simp [Call.isMontagePlay]
        · intro montage anim _ h
          cases h
      | some a =>
        refine ⟨[Call.WeaponFire w, Call.Montage_Play a m Float32.one], ?_, rfl, ?_, ?_, ?_, ?_⟩
        · simp only [Fire, hinv, hweapon, Cast_AWeapon, hf, ha]
        · simp [Call.isMontagePlay]
        · simp [Call.isMontagePlay]
        · intro montage anim h1 h2
          cases h1
          cases h2
          rfl
        · intro h
          rcases h with h | h <;> cases h
  · simp only [SecondaryFire, hinv, hweapon, Cast_AWeapon]

/-- Witness of C9: the weapon `5` equipped, montage `3` configured, animation instance `7`
available. -/
theorem Fire_weapon_equipped_witness :
    Fire simpleInventory (spawned (some gunEquipped) (some 3) (some 7))
        = Except.ok (spawned (some gunEquipped) (some 3) (some 7),
            [Call.WeaponFire 5, Call.Montage_Play 7 3 Float32.one]) ∧
      SecondaryFire simpleInventory (spawned (some gunEquipped) (some 3) (some 7))
        = Except.ok (spawned (some gunEquipped) (some 3) (some 7),
            [Call.WeaponSecondaryFire 5]) := by
  obtain ⟨⟨tr, hfire, _, _, _, hplay, _⟩, hsecond⟩ :=
    Fire_weapon_equipped simpleInventory (spawned (some gunEquipped) (some 3) (some 7))
      gunEquipped 5 rfl rfl
  exact ⟨by rw [hfire, hplay 3 7 rfl rfl], hsecond⟩

/-! ## Movement -/

/-- C7: for every float `v`, when `v == 0.0f` neither `MoveForward v` nor `MoveRight v`
issues a call; otherwise each issues exactly one `AddMovementInput`, along the actor's
forward vector (resp. right vector), with scale `v` itself.  In both cases the character,
hence its flag and its Inventory, is returned as it was. -/
theorem MoveForward_MoveRight_input (c : AInventoryCharacter ι) (v : Float32) :
    (v.isZero = true → MoveForward c v = (c, []) ∧ MoveRight c v = (c, [])) ∧
    (v.isZero = false →
      MoveForward c v = (c, [Call.AddMovementInput (GetActorForwardVector c) v]) ∧
      MoveRight c v = (c, [Call.AddMovementInput (GetActorRightVector c) v])) := by
  constructor
  · intro h
    simp [MoveForward, MoveRight, Float32.neZero, h]
  · intro h
    simp [MoveForward, MoveRight, Float32.neZero, h]

/-- Witness of C7: the inputs `-0.0f`, which compares equal to zero, and `1.0f`. -/
theorem MoveForward_MoveRight_input_witness :
    (MoveForward (spawned none none none) Float32.negZero = (spawned none none none, []) ∧
      MoveRight (spawned none none none) Float32.negZero = (spawned none none none, [])) ∧
    (MoveForward (spawned none none none) Float32.one
        = (spawned none none none,
            [Call.AddMovementInput ⟨Float32.one, ⟨0⟩, ⟨0⟩⟩ Float32.one]) ∧
      MoveRight (spawned none none none) Float32.one
        = (spawned none none none,
            [Call.AddMovementInput ⟨⟨0⟩, Float32.one, ⟨0⟩⟩ Float32.one])) :=
  ⟨(MoveForward_MoveRight_input (spawned none none none) Float32.negZero).1 (by decide),
   (MoveForward_MoveRight_input (spawned none none none) Float32.one).2 (by decide)⟩

/-! ## Tick -/

/-- C10: for every delta time, `Tick` never faults; with an Inventory it issues exactly one
`Raycast`, passing the character itself, and without one it issues no call; either way
`bIsHiddenMesh` and the body mesh are as before. -/
theorem Tick_raycast (I : Inventory ι) (c : AInventoryCharacter ι) (DeltaTime : Float32) :
    (∀ s, c.CharacterInventory = some s →
      ∃ c1, Tick I c DeltaTime = Except.ok (c1, [Call.Raycast c.self]) ∧
        c1.bIsHiddenMesh = c.bIsHiddenMesh ∧ c1.Char = c.Char) ∧
    (c.CharacterInventory = none → Tick I c DeltaTime = Except.ok (c, [])) := by
  constructor
  · intro s h
    simp only [Tick, h]
    exact ⟨_, rfl, rfl, rfl⟩
  · intro h
    simp only [Tick, h]

/-- Witness of C10: one character with an Inventory and one without. -/
theorem Tick_raycast_witness :
    (∃ c1, Tick simpleInventory (spawned (some gunInView) none none) Float32.one
        = Except.ok (c1, [Call.Raycast 1]) ∧
      c1.bIsHiddenMesh = false ∧ c1.Char = ⟨false, none⟩) ∧
    Tick simpleInventory (spawned none none none) Float32.one
      = Except.ok (spawned none none none, []) :=
  ⟨(Tick_raycast simpleInventory (spawned (some gunInView) none none) Float32.one).1
      gunInView rfl,
   (Tick_raycast simpleInventory (spawned none none none) Float32.one).2 rfl⟩

/-! ## Turning and looking up at a rate -/

/-- A zero times a finite value is a zero. -/
theorem Float32.mul_isZero_of_isZero (a b : Float32) (ha : a.isZero = true)
    (hb : b.isFinite = true) : (a.mul b).isZero = true := by
  have hz : a.bits % 4294967296 % 2147483648 = 0 := by
    simpa [Float32.isZero] using ha
  have hbe : b.expField ≠ 255 := by
    simpa [Float32.isFinite] using hb
  have hae : a.expField = 0 := by
    unfold Float32.expField
    omega
  have h1 : a.isNaN = false := by simp [Float32.isNaN, hae]
  have h2 : b.isNaN = false := by simp [Float32.isNaN, hbe]
  have h3 : a.isInf = false := by simp [Float32.isInf, hae]
  have h4 : b.isInf = false := by simp [Float32.isInf, hbe]
  have hs : (a.signBit + b.signBit) % 2 < 2 := Nat.mod_lt _ (by decide)
  simp only [Float32.mul, h1, h2, h3, h4, ha]
  simp only [Float32.isZero, Bool.false_and, Bool.and_false, Bool.or_false, Bool.false_or,
    Bool.true_or, Bool.false_eq_true, if_false, if_true, beq_iff_eq]
  omega

/-- C8, as the code has it: for every rate `r` and delta time `dt`, `TurnAtRate` issues
exactly one yaw input, whose value is the binary32 product `(r * BaseTurnRate) * dt`, and
`LookUpAtRate` exactly one pitch input, whose value is `(r * BaseLookUpRate) * dt`; the
constructor sets both base rates to `45.0f`; and when `r` is a zero and the base rates and
`dt` are finite, both inputs are a zero.  The character is returned as it was. -/
theorem TurnAtRate_LookUpAtRate_input (c : AInventoryCharacter ι) (r dt : Float32) :
    TurnAtRate c r dt
      = (c, [Call.AddControllerYawInput ((r.mul c.BaseTurnRate).mul dt)]) ∧
    LookUpAtRate c r dt
      = (c, [Call.AddControllerPitchInput ((r.mul c.BaseLookUpRate).mul dt)]) ∧
    (∀ c0 : AInventoryCharacter ι,
      c0.AInventoryCharacter.BaseTurnRate = Float32.fortyFive ∧
      c0.AInventoryCharacter.BaseLookUpRate = Float32.fortyFive) ∧
    (r.isZero = true → dt.isFinite = true →
      c.BaseTurnRate.isFinite = true → c.BaseLookUpRate.isFinite = true →
      ((r.mul c.BaseTurnRate).mul dt).isZero = true ∧
      ((r.mul c.BaseLookUpRate).mul dt).isZero = true) := by
  refine ⟨rfl, rfl, fun _ => ⟨rfl, rfl⟩, ?_⟩
  intro hr hdt hturn hlook
  exact ⟨Float32.mul_isZero_of_isZero _ _ (Float32.mul_isZero_of_isZero _ _ hr hturn) hdt,
    Float32.mul_isZero_of_isZero _ _ (Float32.mul_isZero_of_isZero _ _ hr hlook) hdt⟩

/-- Witness of C8: the constructed character, the rate `-0.0f` and a 60 Hz frame. -/
theorem TurnAtRate_LookUpAtRate_input_witness :
    (Float32.negZero.isZero = true ∧ Float32.sixtieth.isFinite = true ∧
      (spawned none none none).AInventoryCharacter.BaseTurnRate.isFinite = true ∧
      (spawned none none none).AInventoryCharacter.BaseLookUpRate.isFinite = true) ∧
    ((Float32.negZero.mul (spawned none none none).AInventoryCharacter.BaseTurnRate).mul
        Float32.sixtieth).isZero = true ∧
    ((Float32.negZero.mul (spawned none none none).AInventoryCharacter.BaseLookUpRate).mul
        Float32.sixtieth).isZero = true :=
  ⟨⟨by decide, by decide, by decide, by decide⟩,
   (TurnAtRate_LookUpAtRate_input (spawned none none none).AInventoryCharacter
      Float32.negZero Float32.sixtieth).2.2.2 (by decide) (by decide) (by decide) (by decide)⟩

/-- C8 as stated fails.  With rate `0.0f` and delta time `+infinity` the yaw and pitch
inputs are the NaN `0xFFC00000`, not a zero.  And the value is not linear in the rate: in a
60 Hz frame the input for the rate `3.0f * 1.0f` is `0x40100000`, while `3.0f` times the
input for the rate `1.0f` is `0x40100001`. -/
theorem TurnAtRate_zero_rate_not_zero_input :
    TurnAtRate (spawned none none none).AInventoryCharacter ⟨0⟩ Float32.posInf
      = ((spawned none none none).AInventoryCharacter,
          [Call.AddControllerYawInput ⟨4290772992⟩]) ∧
    LookUpAtRate (spawned none none none).AInventoryCharacter ⟨0⟩ Float32.posInf
      = ((spawned none none none).AInventoryCharacter,
          [Call.AddControllerPitchInput ⟨4290772992⟩]) ∧
    Float32.isZero ⟨0⟩ = true ∧
    Float32.isZero ⟨4290772992⟩ = false ∧
    Float32.isNaN ⟨4290772992⟩ = true ∧
    TurnAtRate (spawned none none none).AInventoryCharacter
        (Float32.three.mul Float32.one) Float32.sixtieth
      = ((spawned none none none).AInventoryCharacter,
          [Call.AddControllerYawInput ⟨1074790400⟩]) ∧
    TurnAtRate (spawned none none none).AInventoryCharacter Float32.one Float32.sixtieth
      = ((spawned none none none).AInventoryCharacter,
          [Call.AddControllerYawInput ⟨1061158913⟩]) ∧
    Float32.three.mul ⟨1061158913⟩ = ⟨1074790401⟩ ∧
    (⟨1074790400⟩ : Float32) ≠ ⟨1074790401⟩ :=
  ⟨rfl, rfl, rfl, rfl, rfl, rfl, rfl, rfl, by decide⟩

/-! ## Where the source departs from its contract -/

/-- C1: the flag and the mesh fall out of step.  `BeginPlay` on a character whose Inventory
has a weapon in view leaves the flag set and the mesh hidden; the `PickUpInventoryItem`
that follows clears `bIsHiddenMesh` but never calls `SetHiddenInGame(false)`, so the flag
says "shown" while the body mesh is still hidden. -/
theorem PickUpInventoryItem_leaves_mesh_hidden :
    ∃ c1 tr1 c2 tr2,
      BeginPlay simpleInventory (spawned (some gunInView) none none) = Except.ok (c1, tr1) ∧
      c1.bIsHiddenMesh = true ∧ c1.Char.bHiddenInGame = true ∧
      PickUpInventoryItem simpleInventory c1 = Except.ok (c2, tr2) ∧
      c2.bIsHiddenMesh = false ∧ c2.Char.bHiddenInGame = true ∧
      ¬ (c2.bIsHiddenMesh = true ↔ c2.Char.bHiddenInGame = true) :=
  ⟨_, _, _, _, rfl, rfl, rfl, rfl, rfl, rfl, by decide⟩

/-- C6: with a null Inventory only `Tick` is a silent no-op.  `BeginPlay`,
`PickUpInventoryItem`, `DropInventoryItem`, `Fire` and `SecondaryFire` each dereference
`CharacterInventory` unguarded and fault. -/
theorem null_inventory_faults :
    BeginPlay simpleInventory (spawned none (some 3) (some 7))
      = Except.error Fault.nullDereference ∧
    PickUpInventoryItem simpleInventory (spawned none (some 3) (some 7))
      = Except.error Fault.nullDereference ∧
    DropInventoryItem simpleInventory (spawned none (some 3) (some 7))
      = Except.error Fault.nullDereference ∧
    Fire simpleInventory (spawned none (some 3) (some 7))
      = Except.error Fault.nullDereference ∧
    SecondaryFire simpleInventory (spawned none (some 3) (some 7))
      = Except.error Fault.nullDereference ∧
    Tick simpleInventory (spawned none (some 3) (some 7)) Float32.one
      = Except.ok (spawned none (some 3) (some 7), []) :=
  ⟨rfl, rfl, rfl, rfl, rfl, rfl⟩

end GravityGun
